import Mathlib

/-!
Verification development for the CandyConnect VPN client orchestration core,
a shallow embedding of src/client/src-tauri/src/lib.rs.

Conventions used throughout:
* Rust u64 values are modelled as Nat; where an arithmetic operation can
  overflow a u64 we write the release-mode wrapping result explicitly with
  a remainder by 2 ^ 64.
* Rust saturating_sub on u64 is exactly truncated subtraction on Nat.
* Fallible operations return Except or Option.
* Filesystem reads and standard-library services that are external to the
  repository (the settings file, the IP-address parser of std::net) enter the
  embedding as explicit parameters.
* Standard-library string operations are re-implemented over character lists
  so that every definition evaluates inside the kernel.
-/

namespace CandyConnect

/-- The u64 modulus: Rust release builds wrap additions at this bound. -/
def u64Mod : Nat := 2 ^ 64

/-! ## Character-list string utilities

Kernel-computable stand-ins for the Rust standard-library string operations
used by lib.rs (`trim`, `trim_end_matches`, `split_once`, `split_whitespace`,
`str::parse::<u64>`, `starts_with`). -/

/-- Rust `str::trim` on a character list: drop leading and trailing whitespace. -/
def charTrim (l : List Char) : List Char :=
  ((l.dropWhile Char.isWhitespace).reverse.dropWhile Char.isWhitespace).reverse

/-- Rust `str::trim` lifted to `String`. -/
def strTrim (s : String) : String := String.mk (charTrim s.data)

/-- Rust `s.starts_with(p)`. -/
def strStartsWith (s p : String) : Bool := p.data.isPrefixOf s.data

/-- Rust `s.trim_end_matches(':')`: remove every trailing colon. -/
def trimEndColons (s : String) : String :=
  String.mk ((s.data.reverse.dropWhile (fun c => c = ':')).reverse)

/-- Rust `s.split_once(sep)` on a character list: split at the first
occurrence of `sep`, or `none` when `sep` does not occur. -/
def splitOnceChar (sep : Char) : List Char → Option (List Char × List Char)
  | [] => none
  | c :: rest =>
    if c = sep then some ([], rest)
    else
      match splitOnceChar sep rest with
      | some (pre, post) => some (c :: pre, post)
      | none => none

/-- Rust `s.split_once(sep)` lifted to `String`. -/
def strSplitOnce (s : String) (sep : Char) : Option (String × String) :=
  match splitOnceChar sep s.data with
  | some (pre, post) => some (String.mk pre, String.mk post)
  | none => none

/-- Helper for `wsFields`: accumulate the current word (reversed) while
scanning. -/
def wsFieldsAux : List Char → List Char → List (List Char)
  | [], acc => if acc.isEmpty then [] else [acc.reverse]
  | c :: rest, acc =>
    if c.isWhitespace then
      if acc.isEmpty then wsFieldsAux rest [] else acc.reverse :: wsFieldsAux rest []
    else wsFieldsAux rest (c :: acc)

/-- Rust `s.split_whitespace()`: the maximal non-whitespace runs of `s`. -/
def wsFields (s : String) : List String :=
  (wsFieldsAux s.data []).map String.mk

/-- Accumulator loop for decimal parsing; fails on a non-digit character. -/
def digitsToNatAux : List Char → Nat → Option Nat
  | [], acc => some acc
  | c :: rest, acc =>
    if c.isDigit then digitsToNatAux rest (acc * 10 + (c.toNat - 48)) else none

/-- Rust `s.parse::<u64>()`: an optional leading plus sign, then one or more
decimal digits, value below 2 ^ 64. -/
def parse_u64 (s : String) : Option Nat :=
  let ds :=
    match s.data with
    | '+' :: rest => rest
    | l => l
  match ds with
  | [] => none
  | _ :: _ =>
    match digitsToNatAux ds 0 with
    | some n => if n < u64Mod then some n else none
    | none => none

/-! ## Sing-box configuration builder

`generate_sing_box_config` (lib.rs lines 12-86) reads `settings.json`,
extracts each recognized key with a per-key default, asks
`Config::mode_tun_socks` of the `sing_box_helper` module for the base
configuration, and then pushes one server-bypass route rule whose shape
depends on whether the server address parses as an IP address. -/

/-- A sing-box route rule as used by lib.rs (the fields set at lines 69-81). -/
structure RouteRule where
  protocol : Option String
  outbound : Option String
  ip_cidr : Option (List String)
  domain : Option (List String)
deriving DecidableEq

/-- The ordered route section of a sing-box configuration. -/
structure RouteConfig where
  rules : List RouteRule
  final : String
  auto_detect_interface : Bool
deriving DecidableEq

/-- The slice of the sing-box configuration document that the claims are
about: the DNS servers, the TUN inbound parameters, the socks outbound
endpoint, and the ordered route section. -/
structure Config where
  dns_remote : String
  dns_local : String
  inet4 : String
  inet6 : String
  mtu : Nat
  proxy_host : String
  proxy_port : Nat
  route : RouteConfig
deriving DecidableEq

/-- The `protocol=dns → dns-out` route rule (first rule of the policy). -/
def dnsProtocolRule : RouteRule := ⟨some "dns", some "dns-out", none, none⟩

/-- Modelled from the spec: the `sing_box_helper` module that defines
`Config::mode_tun_socks` is not under src/ (lib.rs only declares
`mod sing_box_helper` and calls into it). Spec section 4.3 gives its route
rules in order: 1. `protocol=dns → dns-out`; 2. for a non-empty
user-configured direct-domain list, `domain list → direct-out`; 3. for a
non-empty user-configured block-domain list, `domain list → block-out`. -/
def mode_tun_socks_rules (direct_domains block_domains : List String) : List RouteRule :=
  [dnsProtocolRule]
    ++ (if direct_domains.isEmpty then []
        else [⟨none, some "direct-out", none, some direct_domains⟩])
    ++ (if block_domains.isEmpty then []
        else [⟨none, some "block-out", none, some block_domains⟩])

/-- Modelled from the spec: `Config::mode_tun_socks` (missing
`sing_box_helper` module), argument order as at lib.rs lines 55-65; the
DNS servers, inbound CIDRs, MTU and socks endpoint are placed in the
configuration sections spec section 4.3 describes, and the route rules are
`mode_tun_socks_rules`, with `final = socks-out`. -/
def mode_tun_socks (proxy_host : String) (proxy_port : Nat)
    (primary_dns secondary_dns inet4 inet6 : String) (mtu : Nat)
    (direct_domains block_domains : List String) : Config :=
  { dns_remote := primary_dns
    dns_local := secondary_dns
    inet4 := inet4
    inet6 := inet6
    mtu := mtu
    proxy_host := proxy_host
    proxy_port := proxy_port
    route :=
      { rules := mode_tun_socks_rules direct_domains block_domains
        final := "socks-out"
        auto_detect_interface := true } }

/-- The parsed `settings.json` document restricted to the keys
`generate_sing_box_config` reads. A field is `none` when the key is absent
or not of the expected JSON type, which is exactly when the corresponding
`unwrap_or` default applies (lib.rs lines 27-52). Non-string entries of the
two domain arrays are dropped by the code, so the lists hold strings. -/
structure Settings where
  primaryDns : Option String
  secondaryDns : Option String
  tunInet4CIDR : Option String
  tunInet6CIDR : Option String
  mtu : Option Nat
  proxyHost : Option String
  proxyPort : Option Nat
  customDirectDomains : Option (List String)
  customBlockDomains : Option (List String)
deriving DecidableEq

/-- The server-bypass route rule pushed at lib.rs lines 68-82: for an IP
server address, `ip_cidr = [server_address/32] → direct-out`; otherwise
`domain = [server_address] → direct-out`. -/
def serverBypassRule (server_address : String) (serverIsIp : Bool) : RouteRule :=
  if serverIsIp then
    ⟨none, some "direct-out", some [server_address ++ "/32"], none⟩
  else
    ⟨none, some "direct-out", none, some [server_address]⟩

/-- `generate_sing_box_config` (lib.rs lines 12-86). `settingsFile` is the
parsed content of `settings.json`, `none` when the file does not exist
(line 19 checks `settings_path.exists()`); `serverIsIp` stands for the
standard-library test `server_address.parse::<std::net::IpAddr>().is_ok()`
at line 68. The JSON-parse-failure path (line 24) is not modelled; every
claim concerns an absent file or a parsed document. -/
def generate_sing_box_config (settingsFile : Option Settings)
    (server_address : String) (serverIsIp : Bool) : Except String Config :=
  match settingsFile with
  | none => .error "Settings file not found"
  | some settings =>
    let primary_dns := settings.primaryDns.getD "8.8.8.8"
    let secondary_dns := settings.secondaryDns.getD "1.1.1.1"
    let inet4 := settings.tunInet4CIDR.getD "172.19.0.1/30"
    let inet6 := settings.tunInet6CIDR.getD "fdfe:dcba:9876::1/126"
    let mtu := settings.mtu.getD 9000
    let proxy_host := settings.proxyHost.getD "127.0.0.1"
    let proxy_port := settings.proxyPort.getD 10808
    let direct_domains := settings.customDirectDomains.getD []
    let block_domains := settings.customBlockDomains.getD []
    let config := mode_tun_socks proxy_host proxy_port primary_dns secondary_dns
      inet4 inet6 mtu direct_domains block_domains
    let config :=
      { config with
          route :=
            { config.route with
                rules := config.route.rules ++ [serverBypassRule server_address serverIsIp] } }
    .ok config

/-! ## DNSTT resolver table and command lines -/

/-- `resolve_dnstt_resolver` (lib.rs lines 828-846): map the resolver
shorthand to a `(flag, address)` argument pair for dnstt-client, with the
UDP Google pair as the fallback for every unrecognized input. -/
def resolve_dnstt_resolver (resolver : String) : String × String :=
  match resolver with
  | "udp-google" => ("-udp", "8.8.8.8:53")
  | "udp-cloudflare" => ("-udp", "1.1.1.1:53")
  | "udp-quad9" => ("-udp", "9.9.9.9:53")
  | "udp-opendns" => ("-udp", "208.67.222.222:53")
  | "dot-google" => ("-dot", "dns.google:853")
  | "dot-cloudflare" => ("-dot", "cloudflare-dns.com:853")
  | "dot-quad9" => ("-dot", "dns.quad9.net:853")
  | "doh-google" => ("-doh", "https://dns.google/dns-query")
  | "doh-cloudflare" => ("-doh", "https://cloudflare-dns.com/dns-query")
  | "doh-quad9" => ("-doh", "https://dns.quad9.net/dns-query")
  | _ => ("-udp", "8.8.8.8:53")

/-- The ten recognized resolver names. -/
def knownResolvers : List String :=
  ["udp-google", "udp-cloudflare", "udp-quad9", "udp-opendns",
   "dot-google", "dot-cloudflare", "dot-quad9",
   "doh-google", "doh-cloudflare", "doh-quad9"]

/-- The dnstt tunnel port `proxy_port + 1` (lib.rs line 889); u64 addition,
wrapping in release builds. -/
def dnstt_tunnel_port (proxy_port : Nat) : Nat := (proxy_port + 1) % u64Mod

/-- The argument list of the dnstt-client invocation (lib.rs lines 899-906):
resolver flag and address, `-pubkey` and the key, the tunnel domain, and
last the listen address `127.0.0.1:(proxy_port + 1)`. -/
def dnstt_client_args (resolver public_key domain : String) (proxy_port : Nat) :
    List String :=
  let fa := resolve_dnstt_resolver resolver
  let dnstt_listen_addr := "127.0.0.1:" ++ toString (dnstt_tunnel_port proxy_port)
  [fa.1, fa.2, "-pubkey", public_key, domain, dnstt_listen_addr]

/-- The argument list of the Unix SSH tunnel `sshpass` invocation
(lib.rs lines 1056-1066): password, then `ssh` with a dynamic SOCKS forward
`-D proxy_host:proxy_port`, connecting to port `proxy_port + 1` of
`127.0.0.1`. -/
def ssh_unix_args (ssh_user ssh_pass proxy_host : String) (proxy_port : Nat) :
    List String :=
  let ssh_socks_addr := proxy_host ++ ":" ++ toString proxy_port
  ["-p", ssh_pass, "ssh",
   "-D", ssh_socks_addr,
   "-N",
   "-p", toString (dnstt_tunnel_port proxy_port),
   "-o", "StrictHostKeyChecking=no",
   "-o", "UserKnownHostsFile=/dev/null",
   "-o", "ServerAliveInterval=30",
   "-o", "ServerAliveCountMax=3",
   ssh_user ++ "@127.0.0.1"]

/-- The argument list of the Windows `plink` invocation (lib.rs lines
1033-1041): a dynamic SOCKS forward `-D proxy_host:proxy_port`, port
`-P (proxy_port + 1)`, target host `127.0.0.1` last. -/
def plink_args (ssh_user ssh_pass proxy_host : String) (proxy_port : Nat) :
    List String :=
  let ssh_socks_addr := proxy_host ++ ":" ++ toString proxy_port
  ["-ssh", "-N",
   "-D", ssh_socks_addr,
   "-P", toString (dnstt_tunnel_port proxy_port),
   "-l", ssh_user,
   "-pw", ssh_pass,
   "-batch",
   "-hostkey", "*",
   "127.0.0.1"]

/-! ## Tunnel-interface predicate and Linux counter reader -/

/-- `is_vpn_interface` (lib.rs lines 2003-2011): strip trailing colons, then
test the tunnel name prefixes, exact equality with `sing-box`, or the
`candy` prefix. -/
def is_vpn_interface (name : String) : Bool :=
  let n := trimEndColons name
  strStartsWith n "tun"
    || strStartsWith n "wg"
    || strStartsWith n "utun"
    || strStartsWith n "ppp"
    || n = "sing-box"
    || strStartsWith n "candy"

/-- The loop body of the Linux branch of `read_net_counters`
(lib.rs lines 2024-2039), one interface line of `/proc/net/dev` at a time:
trim the line, split at the first colon, skip interfaces that fail
`is_vpn_interface`, require at least nine whitespace fields after the colon,
parse field 0 (received bytes) and field 8 (sent bytes) as u64, and
accumulate both sums (u64 additions wrap at 2 ^ 64) while recording that a
tunnel interface was seen. -/
def read_net_counters_loop : List String → Nat → Nat → Bool → Nat × Nat × Bool
  | [], vpn_recv, vpn_sent, found_vpn => (vpn_recv, vpn_sent, found_vpn)
  | line :: rest, vpn_recv, vpn_sent, found_vpn =>
    match strSplitOnce (strTrim line) ':' with
    | none => read_net_counters_loop rest vpn_recv vpn_sent found_vpn
    | some (iface, after) =>
      if is_vpn_interface (strTrim iface) then
        let fields := wsFields after
        if 9 ≤ fields.length then
          match parse_u64 (fields[0]?.getD ""), parse_u64 (fields[8]?.getD "") with
          | some r, some s =>
            read_net_counters_loop rest ((vpn_recv + r) % u64Mod)
              ((vpn_sent + s) % u64Mod) true
          | _, _ => read_net_counters_loop rest vpn_recv vpn_sent found_vpn
        else read_net_counters_loop rest vpn_recv vpn_sent found_vpn
      else read_net_counters_loop rest vpn_recv vpn_sent found_vpn

/-- The Linux branch of `read_net_counters` (lib.rs lines 2016-2047).
`table` is the line list produced by `content.lines()` on `/proc/net/dev`
(the code skips the two header lines itself); the path where the file read
fails and the function returns `None` is outside this embedding. When a
tunnel interface was found the accumulated sums are returned, otherwise
`(0, 0)` (still a successful read). -/
def read_net_counters (table : List String) : Option (Nat × Nat) :=
  let res := read_net_counters_loop (table.drop 2) 0 0 false
  if res.2.2 then some (res.1, res.2.1) else some (0, 0)

/-- One parsed line of the interface table, ignoring the tunnel predicate:
the interface name together with its received and sent byte counters, when
the line has the colon and at least nine parseable fields. The reference
point for stating which interfaces contribute to `read_net_counters`. -/
def parseNetDevEntry (line : String) : Option (String × Nat × Nat) :=
  match strSplitOnce (strTrim line) ':' with
  | none => none
  | some (iface, after) =>
    let fields := wsFields after
    if 9 ≤ fields.length then
      match parse_u64 (fields[0]?.getD ""), parse_u64 (fields[8]?.getD "") with
      | some r, some s => some (strTrim iface, r, s)
      | _, _ => none
    else none

/-- The parsed entries of the interface table whose names satisfy a given
interface predicate. -/
def tunnelEntries (p : String → Bool) (table : List String) :
    List (String × Nat × Nat) :=
  ((table.drop 2).filterMap parseNetDevEntry).filter (fun e => p e.1)

/-! ## Network statistics -/

/-- `NetSnapshot` (lib.rs lines 1977-1981): interface byte counters at a
point in time. The `Instant` timestamp is modelled as rational seconds. -/
structure NetSnapshot where
  bytes_recv : Nat
  bytes_sent : Nat
  timestamp : ℚ
deriving DecidableEq

/-- The two process-wide singletons of the net-stats component: the delta
baseline `net_state` (lib.rs lines 1986-1989) and the cumulative session
totals `net_session` (lib.rs lines 1992-1995). -/
structure NetStatsState where
  snapshot : Option NetSnapshot
  totalDl : Nat
  totalUl : Nat
deriving DecidableEq

/-- The JSON object returned by `get_network_stats`
(lib.rs lines 2175-2181), less the constant country code. -/
structure NetStatsOutput where
  downloadSpeed : ℚ
  uploadSpeed : ℚ
  totalDownload : Nat
  totalUpload : Nat
deriving DecidableEq

/-- The rounding to one decimal applied to both speeds
(lib.rs lines 2176-2177); exact rational arithmetic stands in for f64. -/
def roundTenth (q : ℚ) : ℚ := (round (q * 10) : ℤ) / 10

/-- `get_network_stats` (lib.rs lines 2138-2182) as a state transformer:
given the current counters `(bytes_recv, bytes_sent)` read from the platform
and the current time `now` (rational seconds), it computes the speed pair —
zero on the first call after a reset, or when less than a hundredth of a
second elapsed — accumulates the saturating deltas into the session totals
(u64 addition, wrapping at 2 ^ 64 in release builds), stores the new
snapshot, and reports rounded speeds together with the totals. -/
def get_network_stats (st : NetStatsState) (bytes_recv bytes_sent : Nat)
    (now : ℚ) : NetStatsState × NetStatsOutput :=
  let res :=
    match st.snapshot with
    | some prev =>
      let elapsed := now - prev.timestamp
      if 1 / 100 < elapsed then
        let dl_bytes := bytes_recv - prev.bytes_recv
        let ul_bytes := bytes_sent - prev.bytes_sent
        let newDl := (st.totalDl + dl_bytes) % u64Mod
        let newUl := (st.totalUl + ul_bytes) % u64Mod
        (((dl_bytes : ℚ) / elapsed) / 1024, ((ul_bytes : ℚ) / elapsed) / 1024,
         newDl, newUl)
      else (0, 0, st.totalDl, st.totalUl)
    | none => (0, 0, st.totalDl, st.totalUl)
  (⟨some ⟨bytes_recv, bytes_sent, now⟩, res.2.2.1, res.2.2.2⟩,
   ⟨roundTenth res.1, roundTenth res.2.1, res.2.2.1, res.2.2.2⟩)

/-- `reset_network_session` (lib.rs lines 2184-2192): zero both session
totals and clear the baseline snapshot. -/
def reset_network_session (_st : NetStatsState) : NetStatsState :=
  ⟨none, 0, 0⟩

/-! ## Chain orchestration: watcher bodies and health-check gates

Each chain member gets one watcher thread that blocks on the wait handle of
the child process and then runs a straight-line body.  The bodies are
embedded as action lists; the environment facts used when composing traces
are that a killed process exits and that a watcher blocked on a process
that exits runs its body to completion. -/

/-- The chain roles whose processes and reader threads appear in the
watcher bodies. -/
inductive Role
  | xray
  | singBox
  | dnsttClient
  | sshTunnel
  | wireguardSingBox
  | openvpn
deriving DecidableEq

/-- One primitive action of a watcher body or of a `start_*` control path. -/
inductive Action
  | waitChild (r : Role)
  | joinStdoutReader (r : Role)
  | joinStderrReader (r : Role)
  | logLine (msg : String)
  | killPid (r : Role)
  | removeAuthFile
  | emitDisconnected
deriving DecidableEq

/-- The body of the Xray exit watcher in `start_vpn`
(lib.rs lines 249-275): wait, join both reader threads, log, in TUN mode
kill the companion sing-box when its PID was published, and emit
`vpn-disconnected` — unconditionally, with no session flag. -/
def xrayExitWatcher (is_tun_mode sing_box_pid_set : Bool) : List Action :=
  [Action.waitChild Role.xray,
   Action.joinStdoutReader Role.xray,
   Action.joinStderrReader Role.xray,
   Action.logLine "Xray process exited"]
  ++ (if is_tun_mode && sing_box_pid_set then
        [Action.logLine "Xray exited, killing companion Sing-box",
         Action.killPid Role.singBox]
      else [])
  ++ [Action.emitDisconnected]

/-- The body of the Sing-box exit watcher in `start_vpn` TUN mode
(lib.rs lines 400-421): wait, join both reader threads, log, kill the
companion Xray, and emit `vpn-disconnected` — again with no flag. -/
def singBoxExitWatcher : List Action :=
  [Action.waitChild Role.singBox,
   Action.joinStdoutReader Role.singBox,
   Action.joinStderrReader Role.singBox,
   Action.logLine "Sing-box process exited",
   Action.logLine "Sing-box exited, killing companion Xray",
   Action.killPid Role.xray,
   Action.emitDisconnected]

/-- The body of the sing-box exit watcher in `start_wireguard`
(lib.rs lines 627-635): wait, log, emit.  The two reader-thread handles of
this chain are discarded at spawn time (lib.rs lines 582 and 596), so the
watcher joins nothing before emitting. -/
def wireguardExitWatcher : List Action :=
  [Action.waitChild Role.wireguardSingBox,
   Action.logLine "WireGuard sing-box process exited",
   Action.emitDisconnected]

/-- The body of the OpenVPN exit watcher in `start_openvpn`
(lib.rs lines 810-821): wait, log, delete the auth file, emit.  The reader
handles are discarded at spawn time (lib.rs lines 765 and 779), so nothing
is joined before the emission. -/
def openvpnExitWatcher : List Action :=
  [Action.waitChild Role.openvpn,
   Action.logLine "OpenVPN process exited",
   Action.removeAuthFile,
   Action.emitDisconnected]

/-- The body of the dnstt-client exit watcher in `start_dnstt`
(lib.rs lines 987-1018): wait, join both reader threads, log, kill the SSH
tunnel when its PID was published, in TUN mode kill sing-box when its PID
was published, and emit. -/
def dnsttExitWatcher (ssh_pid_set is_tun_mode sing_box_pid_set : Bool) :
    List Action :=
  [Action.waitChild Role.dnsttClient,
   Action.joinStdoutReader Role.dnsttClient,
   Action.joinStderrReader Role.dnsttClient,
   Action.logLine "dnstt-client exited"]
  ++ (if ssh_pid_set then [Action.killPid Role.sshTunnel] else [])
  ++ (if is_tun_mode && sing_box_pid_set then [Action.killPid Role.singBox] else [])
  ++ [Action.emitDisconnected]

/-- The body of the SSH tunnel exit watcher in `start_dnstt`
(lib.rs lines 1135-1160): wait, join both reader threads, log, kill the
dnstt-client, kill sing-box when its PID was published, and emit. -/
def sshExitWatcher (sing_box_pid_set : Bool) : List Action :=
  [Action.waitChild Role.sshTunnel,
   Action.joinStdoutReader Role.sshTunnel,
   Action.joinStderrReader Role.sshTunnel,
   Action.logLine "SSH tunnel exited",
   Action.killPid Role.dnsttClient]
  ++ (if sing_box_pid_set then [Action.killPid Role.singBox] else [])
  ++ [Action.emitDisconnected]

/-- The body of the sing-box exit watcher in `start_dnstt` TUN mode
(lib.rs lines 1281-1301): wait, join both reader threads, log, kill the
dnstt-client, and emit. -/
def dnsttSingBoxExitWatcher : List Action :=
  [Action.waitChild Role.singBox,
   Action.joinStdoutReader Role.singBox,
   Action.joinStderrReader Role.singBox,
   Action.logLine "Sing-box exited, killing dnstt-client",
   Action.killPid Role.dnsttClient,
   Action.emitDisconnected]

/-- The number of `vpn-disconnected` emissions in an action sequence. -/
def emitCount (acts : List Action) : Nat :=
  List.count Action.emitDisconnected acts

/-- A member whose reader threads were drained before the disconnect event:
both join actions for role `r` occur before the first
`emitDisconnected` of the body. -/
def drainsBeforeEmit (acts : List Action) (r : Role) : Bool :=
  let before := acts.takeWhile (fun a => a ≠ Action.emitDisconnected)
  before.contains (Action.joinStdoutReader r)
    && before.contains (Action.joinStderrReader r)

/-- The complete action sequence a v2ray/tun session produces once Xray
exits first (with the sing-box PID published): the Xray watcher body runs,
its cross-kill terminates sing-box, so the sing-box watcher body — blocked
on that process — runs to completion as well.  The trace lists the two
watcher bodies in the interleaving in which the Xray watcher finishes
first. -/
def v2rayTunTerminationTrace : List Action :=
  xrayExitWatcher true true ++ singBoxExitWatcher

/-- The observable outcome of the health-check gate of a `start_*` call:
the value returned to the caller, how many `vpn-disconnected` events the
path emitted, and which chain members are still running afterwards. -/
structure GateOutcome where
  result : Except String Unit
  emits : Nat
  running : List Role

/-- The health-check gate for the first member of `start_vpn`
(lib.rs lines 223-242).  `exited` carries the exit code when
`try_wait` reports that Xray already exited within the 500 ms window: the
code then joins the reader threads, logs, emits `vpn-disconnected`, and
returns an error; otherwise Xray keeps running and the call proceeds.  (The
branch where `try_wait` itself errs proceeds like the running case.) -/
def start_vpn_health_gate (exited : Option Int) : GateOutcome :=
  match exited with
  | some status =>
    { result := .error ("Xray exited immediately with " ++ toString status)
      emits := 1
      running := [] }
  | none =>
    { result := .ok ()
      emits := 0
      running := [Role.xray] }

/-- The health-check gate for the first member of `start_dnstt`
(lib.rs lines 962-980), after the 800 ms window; same shape as the Xray
gate: an early exit joins the readers, emits `vpn-disconnected`, and
returns an error. -/
def start_dnstt_health_gate (exited : Option Int) : GateOutcome :=
  match exited with
  | some status =>
    { result := .error ("dnstt-client exited immediately with " ++ toString status)
      emits := 1
      running := [] }
  | none =>
    { result := .ok ()
      emits := 0
      running := [Role.dnsttClient] }

/-! ## Support definitions for the claims -/

/-- A settings document with every recognized key absent. -/
def emptySettings : Settings :=
  ⟨none, none, none, none, none, none, none, none, none⟩

/-- A settings document carrying, explicitly, the default value the code
substitutes for each absent key (lib.rs lines 27-52). -/
def defaultSettings : Settings :=
  ⟨some "8.8.8.8", some "1.1.1.1", some "172.19.0.1/30",
   some "fdfe:dcba:9876::1/126", some 9000, some "127.0.0.1", some 10808,
   some [], some []⟩

/-- The route rules of a generated configuration, or `[]` on error. -/
def configRules (r : Except String Config) : List RouteRule :=
  match r with
  | .ok c => c.route.rules
  | .error _ => []

/-- A settings document with one user-configured direct domain
(spec scenario S1). -/
def directDomainSettings : Settings :=
  { emptySettings with customDirectDomains := some ["corp.local"] }

/-- The configuration `generate_sing_box_config` produces from
`directDomainSettings` and the IP server address `203.0.113.7`. -/
def directDomainConfig : Config :=
  { dns_remote := "8.8.8.8"
    dns_local := "1.1.1.1"
    inet4 := "172.19.0.1/30"
    inet6 := "fdfe:dcba:9876::1/126"
    mtu := 9000
    proxy_host := "127.0.0.1"
    proxy_port := 10808
    route :=
      { rules :=
          [dnsProtocolRule,
           ⟨none, some "direct-out", none, some ["corp.local"]⟩,
           serverBypassRule "203.0.113.7" true]
        final := "socks-out"
        auto_detect_interface := true } }

/-- A settings document whose only direct domain is the server name itself. -/
def serverAsDirectDomainSettings : Settings :=
  { emptySettings with customDirectDomains := some ["vpn.example.com"] }

/-- The configuration `generate_sing_box_config` produces from
`serverAsDirectDomainSettings` and the IP server address `198.51.100.9`. -/
def serverAsDirectDomainIpConfig : Config :=
  { dns_remote := "8.8.8.8"
    dns_local := "1.1.1.1"
    inet4 := "172.19.0.1/30"
    inet6 := "fdfe:dcba:9876::1/126"
    mtu := 9000
    proxy_host := "127.0.0.1"
    proxy_port := 10808
    route :=
      { rules :=
          [dnsProtocolRule,
           ⟨none, some "direct-out", none, some ["vpn.example.com"]⟩,
           serverBypassRule "198.51.100.9" true]
        final := "socks-out"
        auto_detect_interface := true } }

/-- The rule shape claim C4 describes: outbound `direct-out` and a match
that is exactly the given server — `ip_cidr = [server/32]` for an IP
address, `domain = [server]` otherwise. -/
def isServerMatchRule (addr : String) (isIp : Bool) (r : RouteRule) : Bool :=
  decide (r.outbound = some "direct-out")
    && (if isIp then decide (r.ip_cidr = some [addr ++ "/32"])
        else decide (r.domain = some [addr]))

/-- The tunnel-interface predicate as claim C8 words it: after stripping
the trailing colons, the name starts with one of the five prefixes or
equals `sing-box`. -/
def claimTunnelName (name : String) : Bool :=
  (["tun", "wg", "utun", "ppp", "candy"].any
      (fun p => strStartsWith (trimEndColons name) p))
    || decide (trimEndColons name = "sing-box")

/-- A synthetic `/proc/net/dev` table (two header lines, one wired and two
tunnel interfaces). -/
def sampleNetDevTable : List String :=
  ["Inter-|   Receive",
   " face |bytes    packets errs drop fifo frame compressed multicast",
   "  eth0: 9000 90 0 0 0 0 0 0 4000 40 0 0 0 0 0 0",
   "  tun0: 500 5 0 0 0 0 0 0 700 7 0 0 0 0 0 0",
   "    wg0: 25 2 0 0 0 0 0 0 30 3 0 0 0 0 0 0"]

/-- A synthetic interface table with no tunnel interface. -/
def noTunnelNetDevTable : List String :=
  ["Inter-|   Receive",
   " face |bytes    packets errs drop fifo frame compressed multicast",
   "  eth0: 9000 90 0 0 0 0 0 0 4000 40 0 0 0 0 0 0",
   "    lo: 11 1 0 0 0 0 0 0 11 1 0 0 0 0 0 0"]

/-! ## Theorems -/

/-- Claim C7: `resolve_dnstt_resolver` is total and maps every resolver name
exactly per the spec table — the ten recognized shorthands to their listed
flag/address pairs, and every other input string to `(-udp, 8.8.8.8:53)`. -/
theorem resolve_dnstt_resolver_matches_table :
    (resolve_dnstt_resolver "udp-google" = ("-udp", "8.8.8.8:53")
      ∧ resolve_dnstt_resolver "udp-cloudflare" = ("-udp", "1.1.1.1:53")
      ∧ resolve_dnstt_resolver "udp-quad9" = ("-udp", "9.9.9.9:53")
      ∧ resolve_dnstt_resolver "udp-opendns" = ("-udp", "208.67.222.222:53")
      ∧ resolve_dnstt_resolver "dot-google" = ("-dot", "dns.google:853")
      ∧ resolve_dnstt_resolver "dot-cloudflare" = ("-dot", "cloudflare-dns.com:853")
      ∧ resolve_dnstt_resolver "dot-quad9" = ("-dot", "dns.quad9.net:853")
      ∧ resolve_dnstt_resolver "doh-google" = ("-doh", "https://dns.google/dns-query")
      ∧ resolve_dnstt_resolver "doh-cloudflare"
          = ("-doh", "https://cloudflare-dns.com/dns-query")
      ∧ resolve_dnstt_resolver "doh-quad9" = ("-doh", "https://dns.quad9.net/dns-query"))
    ∧ ∀ s : String, s ∉ knownResolvers →
        resolve_dnstt_resolver s = ("-udp", "8.8.8.8:53") := by
  refine ⟨⟨rfl, rfl, rfl, rfl, rfl, rfl, rfl, rfl, rfl, rfl⟩, ?_⟩
  intro s hs
  simp only [knownResolvers, List.mem_cons, List.not_mem_nil, or_false, not_or] at hs
  unfold resolve_dnstt_resolver
  split <;> simp_all

/-- Witness for claim C7 at the concrete unrecognized input `auto`. -/
theorem resolve_dnstt_resolver_matches_table_witness :
    resolve_dnstt_resolver "auto" = ("-udp", "8.8.8.8:53") :=
  resolve_dnstt_resolver_matches_table.2 "auto" (by decide)

/-- Claim C10: when `settings.json` is absent, `generate_sing_box_config`
returns the error `Settings file not found` instead of falling back to the
defaults, even though each recognized key individually has a default
applied when only that key is missing: a document with every key absent,
and a document with any single key removed, generate the same configuration
as the document carrying the defaults explicitly. -/
theorem generate_sing_box_config_missing_file :
    (∀ (addr : String) (isIp : Bool),
        generate_sing_box_config none addr isIp = .error "Settings file not found")
    ∧ (∀ (addr : String) (isIp : Bool),
        generate_sing_box_config (some emptySettings) addr isIp
          = generate_sing_box_config (some defaultSettings) addr isIp)
    ∧ (∀ (addr : String) (isIp : Bool),
        generate_sing_box_config (some { defaultSettings with primaryDns := none }) addr isIp
            = generate_sing_box_config (some defaultSettings) addr isIp
        ∧ generate_sing_box_config (some { defaultSettings with secondaryDns := none }) addr isIp
            = generate_sing_box_config (some defaultSettings) addr isIp
        ∧ generate_sing_box_config (some { defaultSettings with tunInet4CIDR := none }) addr isIp
            = generate_sing_box_config (some defaultSettings) addr isIp
        ∧ generate_sing_box_config (some { defaultSettings with tunInet6CIDR := none }) addr isIp
            = generate_sing_box_config (some defaultSettings) addr isIp
        ∧ generate_sing_box_config (some { defaultSettings with mtu := none }) addr isIp
            = generate_sing_box_config (some defaultSettings) addr isIp
        ∧ generate_sing_box_config (some { defaultSettings with proxyHost := none }) addr isIp
            = generate_sing_box_config (some defaultSettings) addr isIp
        ∧ generate_sing_box_config (some { defaultSettings with proxyPort := none }) addr isIp
            = generate_sing_box_config (some defaultSettings) addr isIp
        ∧ generate_sing_box_config
              (some { defaultSettings with customDirectDomains := none }) addr isIp
            = generate_sing_box_config (some defaultSettings) addr isIp
        ∧ generate_sing_box_config
              (some { defaultSettings with customBlockDomains := none }) addr isIp
            = generate_sing_box_config (some defaultSettings) addr isIp) :=
  ⟨fun _ _ => rfl, fun _ _ => rfl,
   fun _ _ => ⟨rfl, rfl, rfl, rfl, rfl, rfl, rfl, rfl, rfl⟩⟩

/-- Claim C1 counterexample: in the v2ray/tun chain, once Xray exits first,
the complete termination trace contains two `vpn-disconnected` emissions —
the Xray watcher emits, and the sing-box watcher, woken by the cross-kill,
emits again.  No session-scoped flag exists, so the event is not emitted
exactly once per session. -/
theorem v2rayTun_two_disconnect_events :
    emitCount v2rayTunTerminationTrace = 2
    ∧ ¬ emitCount v2rayTunTerminationTrace = 1 := by
  decide

/-- Claim C1 amended: each member exit watcher of the v2ray chain emits
`vpn-disconnected` unconditionally — exactly once per watcher body, with no
session-scoped flag — so a v2ray/tun session in which Xray exits first
produces one event per member, two in total, rather than one per session. -/
theorem watcher_emits_once_per_member (is_tun sb_set : Bool) :
    emitCount (xrayExitWatcher is_tun sb_set) = 1
    ∧ emitCount singBoxExitWatcher = 1
    ∧ emitCount v2rayTunTerminationTrace = 2 := by
  refine ⟨?_, by decide, by decide⟩
  cases is_tun <;> cases sb_set <;> decide

/-- Claim C2 counterexample: when Xray exits within the 500 ms health-check
window, `start_vpn` does return an error and leaves no member running, but
it also emits a `vpn-disconnected` event, contradicting the claim that no
disconnect event is emitted. -/
theorem start_vpn_health_gate_emits :
    (start_vpn_health_gate (some 1)).result
        = .error ("Xray exited immediately with " ++ toString (1 : Int))
    ∧ (start_vpn_health_gate (some 1)).running = []
    ∧ ¬ (start_vpn_health_gate (some 1)).emits = 0 :=
  ⟨rfl, rfl, by decide⟩

/-- Claim C2 amended: a first helper that exits within its health-check
window causes `start_vpn` and `start_dnstt` to return an error and to leave
no member of the chain running, but the failure path emits one
`vpn-disconnected` event. -/
theorem health_gate_error_and_emit (status : Int) :
    ((start_vpn_health_gate (some status)).result
        = .error ("Xray exited immediately with " ++ toString status)
      ∧ (start_vpn_health_gate (some status)).running = []
      ∧ (start_vpn_health_gate (some status)).emits = 1)
    ∧ ((start_dnstt_health_gate (some status)).result
        = .error ("dnstt-client exited immediately with " ++ toString status)
      ∧ (start_dnstt_health_gate (some status)).running = []
      ∧ (start_dnstt_health_gate (some status)).emits = 1) :=
  ⟨⟨rfl, rfl, rfl⟩, ⟨rfl, rfl, rfl⟩⟩

/-- Claim C5 counterexample: the WireGuard and OpenVPN exit watchers emit
`vpn-disconnected` without joining any reader thread first — their bodies
contain no join action at all, since the reader handles are discarded at
spawn time. -/
theorem wireguard_openvpn_emit_without_join :
    wireguardExitWatcher.contains Action.emitDisconnected = true
    ∧ drainsBeforeEmit wireguardExitWatcher Role.wireguardSingBox = false
    ∧ wireguardExitWatcher.contains
        (Action.joinStdoutReader Role.wireguardSingBox) = false
    ∧ openvpnExitWatcher.contains Action.emitDisconnected = true
    ∧ drainsBeforeEmit openvpnExitWatcher Role.openvpn = false
    ∧ openvpnExitWatcher.contains (Action.joinStdoutReader Role.openvpn) = false := by
  decide

/-- Claim C5 amended: the watchers of the v2ray chain (Xray, sing-box) and
of the dnstt chain (dnstt-client, SSH tunnel, sing-box) join both reader
threads of their member before emitting `vpn-disconnected`; the WireGuard
and OpenVPN watchers emit the event right after the process wait, without
joining their reader threads. -/
theorem drain_before_emit_by_chain (ssh_set is_tun sb_set : Bool) :
    drainsBeforeEmit (xrayExitWatcher is_tun sb_set) Role.xray = true
    ∧ drainsBeforeEmit singBoxExitWatcher Role.singBox = true
    ∧ drainsBeforeEmit (dnsttExitWatcher ssh_set is_tun sb_set) Role.dnsttClient = true
    ∧ drainsBeforeEmit (sshExitWatcher sb_set) Role.sshTunnel = true
    ∧ drainsBeforeEmit dnsttSingBoxExitWatcher Role.singBox = true
    ∧ drainsBeforeEmit wireguardExitWatcher Role.wireguardSingBox = false
    ∧ drainsBeforeEmit openvpnExitWatcher Role.openvpn = false := by
  cases ssh_set <;> cases is_tun <;> cases sb_set <;> decide

/-- Claim C9: for every `start_dnstt` call with proxy port `p` (not at the
u64 wrap-around), the dnstt-client command line ends with the listen
address `127.0.0.1:(p + 1)`, and both SSH tunnel command lines (Unix
`sshpass ssh`, Windows `plink`) contain the dynamic SOCKS forward
`-D proxy_host:p`, connect to port `p + 1`, and target `127.0.0.1`. -/
theorem dnstt_command_line_ports
    (resolver public_key domain ssh_user ssh_pass proxy_host : String)
    (proxy_port : Nat) (h : proxy_port + 1 < u64Mod) :
    (dnstt_client_args resolver public_key domain proxy_port).getLast?
        = some ("127.0.0.1:" ++ toString (proxy_port + 1))
    ∧ List.IsInfix ["-D", proxy_host ++ ":" ++ toString proxy_port]
        (ssh_unix_args ssh_user ssh_pass proxy_host proxy_port)
    ∧ List.IsInfix ["-p", toString (proxy_port + 1)]
        (ssh_unix_args ssh_user ssh_pass proxy_host proxy_port)
    ∧ (ssh_unix_args ssh_user ssh_pass proxy_host proxy_port).getLast?
        = some (ssh_user ++ "@127.0.0.1")
    ∧ List.IsInfix ["-D", proxy_host ++ ":" ++ toString proxy_port]
        (plink_args ssh_user ssh_pass proxy_host proxy_port)
    ∧ List.IsInfix ["-P", toString (proxy_port + 1)]
        (plink_args ssh_user ssh_pass proxy_host proxy_port)
    ∧ (plink_args ssh_user ssh_pass proxy_host proxy_port).getLast? = some "127.0.0.1" := by
  have hmod : dnstt_tunnel_port proxy_port = proxy_port + 1 := by
    unfold dnstt_tunnel_port
    exact Nat.mod_eq_of_lt h
  unfold dnstt_client_args ssh_unix_args plink_args
  rw [hmod]
  exact ⟨rfl,
    ⟨["-p", ssh_pass, "ssh"],
     ["-N", "-p", toString (proxy_port + 1), "-o", "StrictHostKeyChecking=no",
      "-o", "UserKnownHostsFile=/dev/null", "-o", "ServerAliveInterval=30",
      "-o", "ServerAliveCountMax=3", ssh_user ++ "@127.0.0.1"], rfl⟩,
    ⟨["-p", ssh_pass, "ssh", "-D", proxy_host ++ ":" ++ toString proxy_port, "-N"],
     ["-o", "StrictHostKeyChecking=no", "-o", "UserKnownHostsFile=/dev/null",
      "-o", "ServerAliveInterval=30", "-o", "ServerAliveCountMax=3",
      ssh_user ++ "@127.0.0.1"], rfl⟩,
    rfl,
    ⟨["-ssh", "-N"],
     ["-P", toString (proxy_port + 1), "-l", ssh_user, "-pw", ssh_pass,
      "-batch", "-hostkey", "*", "127.0.0.1"], rfl⟩,
    ⟨["-ssh", "-N", "-D", proxy_host ++ ":" ++ toString proxy_port],
     ["-l", ssh_user, "-pw", ssh_pass, "-batch", "-hostkey", "*", "127.0.0.1"], rfl⟩,
    rfl⟩

/-- Witness for claim C9 at proxy port 7070 (spec scenario S4). -/
theorem dnstt_command_line_ports_witness :
    (dnstt_client_args "udp-google" "pubkeyhex" "t.example.com" 7070).getLast?
        = some ("127.0.0.1:" ++ toString (7070 + 1))
    ∧ List.IsInfix ["-D", "127.0.0.1" ++ ":" ++ toString 7070]
        (ssh_unix_args "tunneluser" "secret" "127.0.0.1" 7070)
    ∧ List.IsInfix ["-p", toString (7070 + 1)]
        (ssh_unix_args "tunneluser" "secret" "127.0.0.1" 7070)
    ∧ (ssh_unix_args "tunneluser" "secret" "127.0.0.1" 7070).getLast?
        = some ("tunneluser" ++ "@127.0.0.1")
    ∧ List.IsInfix ["-D", "127.0.0.1" ++ ":" ++ toString 7070]
        (plink_args "tunneluser" "secret" "127.0.0.1" 7070)
    ∧ List.IsInfix ["-P", toString (7070 + 1)]
        (plink_args "tunneluser" "secret" "127.0.0.1" 7070)
    ∧ (plink_args "tunneluser" "secret" "127.0.0.1" 7070).getLast? = some "127.0.0.1" :=
  dnstt_command_line_ports "udp-google" "pubkeyhex" "t.example.com"
    "tunneluser" "secret" "127.0.0.1" 7070 (by decide)

/-- Claim C3 counterexample: with one user-configured direct domain, the
rules are dns rule, user direct rule, server bypass — the bypass is pushed
last (lib.rs lines 68-82), so it does not come before the user-configured
direct rule. -/
theorem server_bypass_not_before_user_rules :
    configRules (generate_sing_box_config (some directDomainSettings) "203.0.113.7" true)
      = [dnsProtocolRule,
         ⟨none, some "direct-out", none, some ["corp.local"]⟩,
         serverBypassRule "203.0.113.7" true]
    ∧ ¬ (List.indexOf (serverBypassRule "203.0.113.7" true)
            (configRules (generate_sing_box_config (some directDomainSettings)
              "203.0.113.7" true))
          < List.indexOf (⟨none, some "direct-out", none, some ["corp.local"]⟩ : RouteRule)
            (configRules (generate_sing_box_config (some directDomainSettings)
              "203.0.113.7" true))) := by
  decide

/-- Claim C3 amended: in the policy `generate_sing_box_config` produces,
the server-bypass rule is positioned after the DNS rule and also after
every user-configured direct-domain and block-domain rule: the DNS rule is
first, the user rules follow it, and the bypass rule is appended last. -/
theorem server_bypass_is_last_rule (s : Settings) (addr : String) (isIp : Bool)
    (cfg : Config) (h : generate_sing_box_config (some s) addr isIp = .ok cfg) :
    cfg.route.rules.head? = some dnsProtocolRule
    ∧ cfg.route.rules.getLast? = some (serverBypassRule addr isIp)
    ∧ cfg.route.rules
        = mode_tun_socks_rules (s.customDirectDomains.getD [])
            (s.customBlockDomains.getD [])
          ++ [serverBypassRule addr isIp] := by
  have hrules : cfg.route.rules
      = mode_tun_socks_rules (s.customDirectDomains.getD [])
          (s.customBlockDomains.getD []) ++ [serverBypassRule addr isIp] := by
    have hh := h.symm
    unfold generate_sing_box_config at hh
    rw [Except.ok.inj hh]
    rfl
  refine ⟨?_, ?_, hrules⟩
  · rw [hrules]
    rfl
  · rw [hrules]
    exact List.getLast?_concat _

/-- Witness for claim C3 amended, at the settings with one direct domain
and the IP server `203.0.113.7`. -/
theorem server_bypass_is_last_rule_witness :
    directDomainConfig.route.rules.head? = some dnsProtocolRule
    ∧ directDomainConfig.route.rules.getLast?
        = some (serverBypassRule "203.0.113.7" true)
    ∧ directDomainConfig.route.rules
        = mode_tun_socks_rules (directDomainSettings.customDirectDomains.getD [])
            (directDomainSettings.customBlockDomains.getD [])
          ++ [serverBypassRule "203.0.113.7" true] :=
  server_bypass_is_last_rule directDomainSettings "203.0.113.7" true
    directDomainConfig rfl

/-- Claim C4 counterexample: when the server address is the domain
`vpn.example.com` and the user direct-domain list is exactly that one
domain, the generated policy contains two rules of the claimed shape
(outbound `direct-out`, `domain = [vpn.example.com]`) — the user rule and
the appended bypass — not exactly one. -/
theorem server_bypass_duplicated_by_user_rule :
    (configRules (generate_sing_box_config (some serverAsDirectDomainSettings)
        "vpn.example.com" false)).countP (isServerMatchRule "vpn.example.com" false)
      = 2
    ∧ ¬ (configRules (generate_sing_box_config (some serverAsDirectDomainSettings)
        "vpn.example.com" false)).countP (isServerMatchRule "vpn.example.com" false)
      = 1 := by
  decide

/-- Claim C4 amended: the policy always contains the appended bypass rule,
and it contains exactly one rule whose outbound is `direct-out` and whose
match is the given server — `ip_cidr = [server/32]` for an IP address,
`domain = [server]` otherwise — provided the server address is an IP or the
user direct-domain list is not exactly the singleton of the server address
(in that excluded case the user rule duplicates the shape and the count is
two). -/
theorem server_bypass_unique (s : Settings) (addr : String) (isIp : Bool)
    (cfg : Config) (h : generate_sing_box_config (some s) addr isIp = .ok cfg)
    (hnd : isIp = true ∨ s.customDirectDomains.getD [] ≠ [addr]) :
    cfg.route.rules.countP (isServerMatchRule addr isIp) = 1 := by
  have hc : cfg.route.rules
      = mode_tun_socks_rules (s.customDirectDomains.getD [])
          (s.customBlockDomains.getD []) ++ [serverBypassRule addr isIp] := by
    have hh := h.symm
    unfold generate_sing_box_config at hh
    rw [Except.ok.inj hh]
    rfl
  rw [hc]
  rw [List.countP_append]
  have hbypass : (List.countP (isServerMatchRule addr isIp) [serverBypassRule addr isIp]) = 1 := by
    cases isIp <;> simp [serverBypassRule, isServerMatchRule, List.countP_cons]
  rw [hbypass]
  have hmode : (mode_tun_socks_rules (s.customDirectDomains.getD [])
      (s.customBlockDomains.getD [])).countP (isServerMatchRule addr isIp) = 0 := by
    unfold mode_tun_socks_rules
    rw [List.countP_append, List.countP_append]
    have h1 : List.countP (isServerMatchRule addr isIp) [dnsProtocolRule] = 0 := by
      cases isIp <;> simp [dnsProtocolRule, isServerMatchRule, List.countP_cons]
    have h2 : List.countP (isServerMatchRule addr isIp)
        (if (s.customDirectDomains.getD []).isEmpty then []
         else [⟨none, some "direct-out", none, some (s.customDirectDomains.getD [])⟩]) = 0 := by
      split
      · rfl
      · cases isIp with
        | true => simp [isServerMatchRule, List.countP_cons]
        | false =>
          have hne : s.customDirectDomains.getD [] ≠ [addr] := by
            rcases hnd with hip | hne
            · exact absurd hip (by simp)

            · exact hne
          simp [isServerMatchRule, List.countP_cons, hne]
    have h3 : List.countP (isServerMatchRule addr isIp)
        (if (s.customBlockDomains.getD []).isEmpty then []
         else [⟨none, some "block-out", none, some (s.customBlockDomains.getD [])⟩]) = 0 := by
      split
      · rfl
      · cases isIp <;> simp [isServerMatchRule, List.countP_cons]
    rw [h1, h2, h3]
  rw [hmode]

/-- Witness for claim C4 amended, at the IP server `198.51.100.9` with a
user direct-domain list present. -/
theorem server_bypass_unique_witness :
    serverAsDirectDomainIpConfig.route.rules.countP
      (isServerMatchRule "198.51.100.9" true) = 1 :=
  server_bypass_unique serverAsDirectDomainSettings "198.51.100.9" true
    serverAsDirectDomainIpConfig rfl (Or.inl rfl)

/-- Claim C6: within a session the totals are monotonically non-decreasing
across `get_network_stats` calls — the deltas are saturating subtractions,
hence never negative, and the u64 accumulation does not wrap below the
stated bound — and `reset_network_session` zeroes both totals and clears
the snapshot, so the call right after a reset reports zero speeds and zero
totals. -/
theorem network_totals_monotone_and_reset (st : NetStatsState)
    (recv sent : Nat) (now : ℚ)
    (hdl : st.totalDl + recv < u64Mod) (hul : st.totalUl + sent < u64Mod) :
    (st.totalDl ≤ (get_network_stats st recv sent now).1.totalDl
      ∧ st.totalUl ≤ (get_network_stats st recv sent now).1.totalUl)
    ∧ reset_network_session st = ⟨none, 0, 0⟩
    ∧ (get_network_stats (reset_network_session st) recv sent now).2
        = ⟨0, 0, 0, 0⟩ := by
  refine ⟨?_, rfl, ?_⟩
  · unfold get_network_stats
    cases hsnap : st.snapshot with
    | none => exact ⟨le_refl _, le_refl _⟩
    | some prev =>
      simp only
      split
      · constructor
        · have hle : st.totalDl + (recv - prev.bytes_recv) < u64Mod :=
            lt_of_le_of_lt (Nat.add_le_add_left (Nat.sub_le _ _) _) hdl
          rw [Nat.mod_eq_of_lt hle]
          exact Nat.le_add_right _ _
        · have hle : st.totalUl + (sent - prev.bytes_sent) < u64Mod :=
            lt_of_le_of_lt (Nat.add_le_add_left (Nat.sub_le _ _) _) hul
          rw [Nat.mod_eq_of_lt hle]
          exact Nat.le_add_right _ _
      · exact ⟨le_refl _, le_refl _⟩
  · unfold reset_network_session get_network_stats
    simp only
    have hr : roundTenth 0 = 0 := by
      unfold roundTenth
      norm_num
    rw [hr]

/-- Witness for claim C6, at a baseline snapshot of zero counters followed
by a read of about one megabyte after one second. -/
theorem network_totals_monotone_and_reset_witness :
    ((⟨some ⟨0, 0, 0⟩, 0, 0⟩ : NetStatsState).totalDl
        ≤ (get_network_stats ⟨some ⟨0, 0, 0⟩, 0, 0⟩ 1024000 2048 1).1.totalDl
      ∧ (⟨some ⟨0, 0, 0⟩, 0, 0⟩ : NetStatsState).totalUl
        ≤ (get_network_stats ⟨some ⟨0, 0, 0⟩, 0, 0⟩ 1024000 2048 1).1.totalUl)
    ∧ reset_network_session ⟨some ⟨0, 0, 0⟩, 0, 0⟩ = ⟨none, 0, 0⟩
    ∧ (get_network_stats (reset_network_session ⟨some ⟨0, 0, 0⟩, 0, 0⟩) 1024000 2048 1).2
        = ⟨0, 0, 0, 0⟩ :=
  network_totals_monotone_and_reset ⟨some ⟨0, 0, 0⟩, 0, 0⟩ 1024000 2048 1
    (by decide) (by decide)

/-- The accumulator loop of the Linux counter reader computes, for both
counters, a wrapping fold of the contributions of exactly those parsed
lines whose interface name passes `is_vpn_interface`, and its flag records
whether any such line existed. -/
theorem read_net_counters_loop_spec (lines : List String) :
    ∀ (r s : Nat) (f : Bool),
      read_net_counters_loop lines r s f
        = ((((lines.filterMap parseNetDevEntry).filter
              (fun e => is_vpn_interface e.1)).map (fun e => e.2.1)).foldl
                (fun a x => (a + x) % u64Mod) r,
           (((lines.filterMap parseNetDevEntry).filter
              (fun e => is_vpn_interface e.1)).map (fun e => e.2.2)).foldl
                (fun a x => (a + x) % u64Mod) s,
           f || !((lines.filterMap parseNetDevEntry).filter
              (fun e => is_vpn_interface e.1)).isEmpty) := by
  induction lines with
  | nil => intro r s f; simp [read_net_counters_loop]
  | cons line rest ih =>
    intro r s f
    unfold read_net_counters_loop
    cases hsp : strSplitOnce (strTrim line) ':' with
    | none =>
      have hp : parseNetDevEntry line = none := by
        unfold parseNetDevEntry
        rw [hsp]
      simp [hp, List.filterMap_cons, ih]
    | some pr =>
      obtain ⟨iface, after⟩ := pr
      by_cases hv : is_vpn_interface (strTrim iface)
      · by_cases hlen : 9 ≤ (wsFields after).length
        · cases hr0 : parse_u64 ((wsFields after)[0]?.getD "") with
          | none =>
            have hp : parseNetDevEntry line = none := by
              unfold parseNetDevEntry
              rw [hsp]
              simp [hlen, hr0]
            simp [hv, hlen, hr0, hp, List.filterMap_cons, ih]
          | some rv =>
            cases hr8 : parse_u64 ((wsFields after)[8]?.getD "") with
            | none =>
              have hp : parseNetDevEntry line = none := by
                unfold parseNetDevEntry
                rw [hsp]
                simp [hlen, hr0, hr8]
              simp [hv, hlen, hr0, hr8, hp, List.filterMap_cons, ih]
            | some sv =>
              have hp : parseNetDevEntry line = some (strTrim iface, rv, sv) := by
                unfold parseNetDevEntry
                rw [hsp]
                simp [hlen, hr0, hr8]
              simp [hv, hlen, hr0, hr8, hp, List.filterMap_cons, ih]
        · have hp : parseNetDevEntry line = none := by
            unfold parseNetDevEntry
            rw [hsp]
            simp [hlen]
          simp [hv, hlen, hp, List.filterMap_cons, ih]
      · cases hpe : parseNetDevEntry line with
        | none => simp [hv, hsp, hpe, List.filterMap_cons, ih]
        | some e =>
          have he1 : e.1 = strTrim iface := by
            have hh := hpe.symm
            unfold parseNetDevEntry at hh
            rw [hsp] at hh
            dsimp only at hh
            by_cases hlen : 9 ≤ (wsFields after).length
            · rw [if_pos hlen] at hh
              cases hr0 : parse_u64 ((wsFields after)[0]?.getD "") with
              | none =>
                rw [hr0] at hh
                dsimp only at hh
                cases hh
              | some rv =>
                cases hr8 : parse_u64 ((wsFields after)[8]?.getD "") with
                | none =>
                  rw [hr0, hr8] at hh
                  dsimp only at hh
                  cases hh
                | some sv =>
                  rw [hr0, hr8] at hh
                  dsimp only at hh
                  rw [Option.some.inj hh]
            · rw [if_neg hlen] at hh
              cases hh
          have hev : is_vpn_interface e.1 = false := by
            rw [he1]
            exact Bool.of_not_eq_true hv
          simp [hv, hsp, hpe, hev, List.filterMap_cons, ih]

/-- A left fold with wrapping u64 addition, started below the modulus,
equals the wrapped plain sum. -/
theorem foldl_wrap_add_eq (xs : List Nat) :
    ∀ r : Nat, r < u64Mod →
      xs.foldl (fun a x => (a + x) % u64Mod) r = (r + xs.sum) % u64Mod := by
  induction xs with
  | nil => intro r hr; simp [Nat.mod_eq_of_lt hr]
  | cons x xs ih =>
    intro r hr
    simp only [List.foldl_cons, List.sum_cons]
    rw [ih _ (Nat.mod_lt _ (by norm_num [u64Mod]))]
    rw [Nat.mod_add_mod, Nat.add_assoc]

/-- The Linux counter reader returns the wrapped sums of the received and
sent bytes of exactly the interfaces passing `is_vpn_interface`. -/
theorem read_net_counters_eq (table : List String) :
    read_net_counters table
      = some ((((tunnelEntries is_vpn_interface table).map (fun e => e.2.1)).sum % u64Mod),
              (((tunnelEntries is_vpn_interface table).map (fun e => e.2.2)).sum % u64Mod)) := by
  unfold read_net_counters tunnelEntries
  rw [read_net_counters_loop_spec]
  simp only [Bool.false_or]
  rw [foldl_wrap_add_eq _ 0 (by norm_num [u64Mod]),
    foldl_wrap_add_eq _ 0 (by norm_num [u64Mod])]
  simp only [Nat.zero_add]
  by_cases hfe : ((table.drop 2).filterMap parseNetDevEntry).filter
      (fun e => is_vpn_interface e.1) = []
  · simp [hfe]
  · simp [hfe]

/-- Claim C8: an interface name is classified as a tunnel interface exactly
per the claimed predicate (strip the trailing colons, then the five name
prefixes or exact `sing-box`); the counter reader sums received and sent
bytes over exactly the interfaces satisfying the predicate, non-tunnel
interfaces contributing nothing; and when no tunnel interface is present it
returns `(0, 0)` rather than a read failure. -/
theorem tunnel_filter_and_counters :
    (∀ name : String, is_vpn_interface name = claimTunnelName name)
    ∧ (∀ table : List String,
        read_net_counters table
          = some ((((tunnelEntries is_vpn_interface table).map (fun e => e.2.1)).sum % u64Mod),
                  (((tunnelEntries is_vpn_interface table).map (fun e => e.2.2)).sum % u64Mod)))
    ∧ (∀ table : List String,
        tunnelEntries is_vpn_interface table = [] →
          read_net_counters table = some (0, 0)) := by
  refine ⟨?_, fun t => read_net_counters_eq t, fun t ht => ?_⟩
  · intro name
    simp only [is_vpn_interface, claimTunnelName, List.any_cons, List.any_nil,
      Bool.or_false]
    cases h1 : strStartsWith (trimEndColons name) "tun" <;>
      cases h2 : strStartsWith (trimEndColons name) "wg" <;>
      cases h3 : strStartsWith (trimEndColons name) "utun" <;>
      cases h4 : strStartsWith (trimEndColons name) "ppp" <;>
      cases h5 : decide (trimEndColons name = "sing-box") <;>
      cases h6 : strStartsWith (trimEndColons name) "candy" <;>
      simp [h1, h2, h3, h4, h5, h6]
  · rw [read_net_counters_eq t, ht]
    simp

/-- Witness for claim C8: on the synthetic table the reader sums only the
two tunnel interfaces (500 + 25 received, 700 + 30 sent), and it returns
`(0, 0)` on the concrete table that has no tunnel interface. -/
theorem tunnel_filter_and_counters_witness :
    read_net_counters sampleNetDevTable = some (525, 730)
    ∧ read_net_counters noTunnelNetDevTable = some (0, 0) :=
  ⟨(tunnel_filter_and_counters.2.1 sampleNetDevTable).trans (by decide),
   tunnel_filter_and_counters.2.2 noTunnelNetDevTable (by decide)⟩

end CandyConnect
